import Mathlib

/-!
Shallow embedding of the macOS fullscreen / window-chrome transition core of
`src/platform_impl/macos/window.rs` (winit fork), and proofs about it.

The embedding follows the source line by line:
* `SharedState` mirrors the struct at window.rs:290-312.
* `set_fullscreen` mirrors `UnownedWindow::set_fullscreen` (window.rs:832-1022);
  the two `assert!`s on display-capture / video-mode failure (lines 922 and 931)
  are modelled as `Except.error` carrying the system state at the panic point.
* `set_simple_fullscreen` mirrors `WindowExtMacOS::set_simple_fullscreen`
  (window.rs:1192-1272), `restore_state_from_fullscreen` mirrors lines 772-784,
  `saved_style` lines 757-767, `is_zoomed` lines 735-755, `set_resizable`
  lines 619-635, `set_decorations` lines 1024-1060, `set_maximized`
  lines 804-818, `set_always_on_top` lines 1067-1075.
* External collaborators (the Surface = NSWindow/NSView, the Display = Core
  Graphics, and the delegate callbacks living in util.rs / window_delegate.rs,
  which are not under src/) are modelled from the spec; each such definition
  carries a doc comment starting with `Modelled from the spec:`.

Every Surface/Display command issued is recorded in a trace (`Sys.cmds`) and
its effect is applied immediately (the source issues them asynchronously on the
single UI-affine thread; in this sequential model "async" and "sync" coincide).
-/

/-- A physical display, identified by its `CGDirectDisplayID`
(`MonitorHandle::native_identifier`). -/
abbrev DisplayId := Nat

/-- A video mode: a display plus a native mode descriptor
(`VideoMode { monitor, native_mode, .. }`). -/
structure VideoMode where
  monitor : DisplayId
  nativeMode : Nat
  deriving DecidableEq

/-- `Fullscreen` from the public window API: `Borderless(Option<MonitorHandle>)`
or `Exclusive(VideoMode)`. Equality is structural, as in the source
(`#[derive(PartialEq)]`). -/
inductive Fullscreen where
  | Borderless : Option DisplayId → Fullscreen
  | Exclusive : VideoMode → Fullscreen
  deriving DecidableEq

/-- The `NSWindowStyleMask` bits this component manipulates (titled, closable,
miniaturizable, resizable). `NSBorderlessWindowMask` is the empty mask. -/
structure StyleMask where
  titled : Bool
  closable : Bool
  miniaturizable : Bool
  resizable : Bool
  deriving DecidableEq

/-- The `NSApplicationPresentationOptions` bits this component manipulates. -/
structure PresentationOptions where
  fullScreen : Bool
  hideDock : Bool
  hideMenuBar : Bool
  autoHideDock : Bool
  autoHideMenuBar : Bool
  deriving DecidableEq

/-- An `NSRect` (origin at bottom-left, y axis pointing up). `CGFloat`
coordinates are modelled as integers; no claim depends on fractional values. -/
structure Rect where
  x : Int
  y : Int
  w : Int
  h : Int
  deriving DecidableEq

/-- The window levels used by this component: the normal/base level
(`NSNormalWindowLevel` / `kCGBaseWindowLevelKey`), the floating level used by
always-on-top, and `CGShieldingWindowLevel() + 1` used in exclusive mode. -/
inductive WindowLevel where
  | normal
  | floating
  | aboveShielding
  deriving DecidableEq

/-- One Surface or Display command issued by the core, as named in spec section 6. -/
inductive Cmd where
  | setFrameTopLeft : Int × Int → Cmd
  | toggleNativeFullscreen : Bool → Cmd
  | displayFade : Bool → Cmd
  | captureDisplay : DisplayId → Cmd
  | setDisplayVideoMode : DisplayId → Nat → Cmd
  | restoreDisplayMode : DisplayId → Cmd
  | setStyleMask : StyleMask → Cmd
  | setWindowLevel : WindowLevel → Cmd
  | setAppPresentationOptions : PresentationOptions → Cmd
  | setFrame : Rect → Cmd
  | setMovable : Bool → Cmd
  | maximize : Bool → Cmd
  deriving DecidableEq

/-- `SharedState` (window.rs:290-312), field for field. -/
structure SharedState where
  resizable : Bool
  fullscreen : Option Fullscreen
  in_fullscreen_transition : Bool
  target_fullscreen : Option (Option Fullscreen)
  maximized : Bool
  standard_frame : Option Rect
  is_simple_fullscreen : Bool
  saved_style : Option StyleMask
  save_presentation_opts : Option PresentationOptions
  saved_desktop_display_mode : Option (DisplayId × Nat)
  deriving DecidableEq

/-- The Surface collaborator: the observable state of the native window. -/
structure Surface where
  frame : Rect
  styleMask : StyleMask
  screen : DisplayId
  level : WindowLevel
  movable : Bool
  zoomed : Bool
  deriving DecidableEq

/-- The whole system: shared state, Surface, the application-wide presentation
options (`NSApp.presentationOptions`), the set of displays currently captured
by this process (the ambient effect of `CGDisplayCapture` — the source stores
no handle), the `decorations` atomic of `UnownedWindow`, and the command trace. -/
structure Sys where
  shared : SharedState
  surface : Surface
  app_presentation_options : PresentationOptions
  captured : List DisplayId
  decorations : Bool
  cmds : List Cmd
  deriving DecidableEq

/-- OS-provided conditions read (not written) during a call: whether
`CGDisplayCapture` / `CGDisplaySetDisplayMode` / the fade reservation succeed,
each screen's frame, and the title-bar height used by `contentRectForFrameRect`. -/
structure Env where
  captureOk : DisplayId → Bool
  setModeOk : DisplayId → Nat → Bool
  fadeReservationOk : Bool
  screenFrame : DisplayId → Rect
  titleBarHeight : Int

/-- Record a command in the trace. -/
def emitCmd (s : Sys) (c : Cmd) : Sys := { s with cmds := s.cmds ++ [c] }

/-- Modelled from the spec: Surface collaborator `set_style_mask (sync)`
(util.rs, not under src/) — applies the style mask and records the command. -/
def set_style_mask_sync (s : Sys) (mask : StyleMask) : Sys :=
  let s := emitCmd s (Cmd.setStyleMask mask)
  { s with surface := { s.surface with styleMask := mask } }

/-- Modelled from the spec: Surface collaborator `set_style_mask (async)`
(util.rs, not under src/) — in this sequential model identical to the sync
variant: the command is recorded and its effect applied. -/
def set_style_mask_async (s : Sys) (mask : StyleMask) : Sys :=
  set_style_mask_sync s mask

/-- Modelled from the spec: `util::set_frame_top_left_point_async` (not under
src/) — moves the Surface so that its top-left corner is at the given point
(Cocoa rect origins are bottom-left, so the stored origin y is point y minus
the frame height), and records the command. -/
def set_frame_top_left_point_async (s : Sys) (p : Int × Int) : Sys :=
  let s := emitCmd s (Cmd.setFrameTopLeft p)
  { s with surface := { s.surface with
      frame := { s.surface.frame with x := p.1, y := p.2 - s.surface.frame.h } } }

/-- Modelled from the spec: `util::toggle_full_screen_async` (not under src/) —
issues the asynchronous native toggle-fullscreen command; its completion is
observed later through the delegate callbacks. -/
def toggle_full_screen_async (s : Sys) (not_fullscreen : Bool) : Sys :=
  emitCmd s (Cmd.toggleNativeFullscreen not_fullscreen)

/-- Modelled from the spec: `util::restore_display_mode_async` (not under
src/) — restores the display's desktop video mode and releases the exclusive
display capture for that display (spec 4.2 step 5: leaving Exclusive releases
the display capture and restores the previous video mode). -/
def restore_display_mode_async (s : Sys) (d : DisplayId) : Sys :=
  let s := emitCmd s (Cmd.restoreDisplayMode d)
  { s with captured := s.captured.erase d }

/-- Record that `CGDisplayCapture` succeeded for `d`: the display is now
captured by this process. -/
def addCapture (s : Sys) (d : DisplayId) : Sys :=
  { s with captured := if d ∈ s.captured then s.captured else d :: s.captured }

/-- `NSApp.setPresentationOptions_`: applies the options and records the command. -/
def setAppPresentationOptions (s : Sys) (o : PresentationOptions) : Sys :=
  let s := emitCmd s (Cmd.setAppPresentationOptions o)
  { s with app_presentation_options := o }

/-- `shared_state.save_presentation_opts = Some(app.presentationOptions_())`. -/
def savePresentationOpts (s : Sys) : Sys :=
  { s with shared := { s.shared with
      save_presentation_opts := some s.app_presentation_options } }

/-- Modelled from the spec: `set_window_level` on the Surface
(`msg_send![window, setLevel: ...]`) — applies the level and records the command. -/
def set_level_async (s : Sys) (l : WindowLevel) : Sys :=
  let s := emitCmd s (Cmd.setWindowLevel l)
  { s with surface := { s.surface with level := l } }

/-- `NSWindow::setFrame_display_`: applies the frame and records the command. -/
def setFrame_display (s : Sys) (r : Rect) : Sys :=
  let s := emitCmd s (Cmd.setFrame r)
  { s with surface := { s.surface with frame := r } }

/-- `NSWindow::setMovable_`: applies the flag and records the command. -/
def setMovable (s : Sys) (b : Bool) : Sys :=
  let s := emitCmd s (Cmd.setMovable b)
  { s with surface := { s.surface with movable := b } }

/-- Modelled from the spec: `util::set_maximized_async` (not under src/) —
asynchronously toggles the zoom state of the Surface and updates the shared
`maximized` flag (spec 4.4: otherwise asynchronously toggles and updates
`maximized`). It does not touch the style mask. -/
def set_maximized_async (s : Sys) (maximized : Bool) : Sys :=
  let s := emitCmd s (Cmd.maximize maximized)
  let s := { s with surface := { s.surface with zoomed := maximized } }
  { s with shared := { s.shared with maximized := maximized } }

/-- The chrome bits toggled by `util::toggle_style_mask` calls in this file. -/
inductive StyleBit where
  | titled
  | miniaturizable
  | resizable
  deriving DecidableEq

/-- Modelled from the spec: `util::toggle_style_mask` (not under src/) — sets
or clears one chrome bit of the current Surface style mask (spec 4.4: hides
chrome via direct mask toggles) and applies the result. -/
def toggle_style_mask (s : Sys) (bit : StyleBit) (value : Bool) : Sys :=
  let m := s.surface.styleMask
  let m' := match bit with
    | StyleBit.titled => { m with titled := value }
    | StyleBit.miniaturizable => { m with miniaturizable := value }
    | StyleBit.resizable => { m with resizable := value }
  set_style_mask_async s m'

/-- Modelled from the spec: AppKit `contentRectForFrameRect` — the content
rectangle of a window frame excludes the title bar when the style mask has the
titled bit (the source's own comment at window.rs:1209-1210 saves the standard
frame with "Exclude title bar"). The title-bar height is an environment
parameter (28 points on macOS). -/
def contentRectForFrameRect (env : Env) (mask : StyleMask) (r : Rect) : Rect :=
  if mask.titled then { r with h := r.h - env.titleBarHeight } else r

/-- `SharedState::saved_standard_frame` (window.rs:315-318). -/
def saved_standard_frame (ss : SharedState) : Rect :=
  ss.standard_frame.getD { x := 50, y := 50, w := 800, h := 600 }

/-- The presentation options applied when moving a Borderless window on top of
the exclusive capture (window.rs:994-998). -/
def exclusiveEnterOpts : PresentationOptions :=
  { fullScreen := true, hideDock := true, hideMenuBar := true,
    autoHideDock := false, autoHideMenuBar := false }

/-- The fallback options applied when reverting Exclusive → Borderless with no
saved options (window.rs:1006-1011). -/
def exclusiveExitDefaultOpts : PresentationOptions :=
  { fullScreen := true, hideDock := false, hideMenuBar := false,
    autoHideDock := true, autoHideMenuBar := true }

/-- The options applied when entering simple fullscreen (window.rs:1222-1225). -/
def simpleFullscreenOpts : PresentationOptions :=
  { fullScreen := false, hideDock := false, hideMenuBar := false,
    autoHideDock := true, autoHideMenuBar := true }

/-- `UnownedWindow::saved_style` (window.rs:757-767): take the saved style (or
the current mask) and overwrite its resizable bit with the stored flag. -/
def saved_style (s : Sys) : StyleMask × Sys :=
  let base_mask := s.shared.saved_style.getD s.surface.styleMask
  let s := { s with shared := { s.shared with saved_style := none } }
  if s.shared.resizable then
    ({ base_mask with resizable := true }, s)
  else
    ({ base_mask with resizable := false }, s)

/-- The mask required by `is_zoomed` (window.rs:740-741):
`NSTitledWindowMask | NSResizableWindowMask`. -/
def zoomRequiredMask : StyleMask :=
  { titled := true, closable := false, miniaturizable := false, resizable := true }

/-- `UnownedWindow::is_zoomed` (window.rs:735-755): if the current mask lacks
the titled and resizable bits, temporarily apply them, query `isZoomed`, then
roll the original mask back. -/
def is_zoomed (s : Sys) : Bool × Sys :=
  let curr_mask := s.surface.styleMask
  let needs_temp_mask := !(curr_mask.titled && curr_mask.resizable)
  let s1 := if needs_temp_mask then set_style_mask_sync s zoomRequiredMask else s
  let z := s1.surface.zoomed
  let s2 := if needs_temp_mask then set_style_mask_async s1 curr_mask else s1
  (z, s2)

/-- `UnownedWindow::set_maximized` (window.rs:804-818). -/
def set_maximized (s : Sys) (maximized : Bool) : Sys :=
  let p := is_zoomed s
  if p.1 = maximized then p.2 else set_maximized_async p.2 maximized

/-- `UnownedWindow::restore_state_from_fullscreen` (window.rs:772-784). -/
def restore_state_from_fullscreen (s : Sys) : Sys :=
  let s := { s with shared := { s.shared with fullscreen := none } }
  let maximized := s.shared.maximized
  let p := saved_style s
  let s := set_style_mask_async p.2 p.1
  set_maximized s maximized

/-- `UnownedWindow::set_resizable` (window.rs:619-635). -/
def set_resizable (s : Sys) (resizable : Bool) : Sys :=
  let s := { s with shared := { s.shared with resizable := resizable } }
  let fullscreen := s.shared.fullscreen.isSome
  if !fullscreen then
    let m := s.surface.styleMask
    let mask := if resizable then { m with resizable := true }
                else { m with resizable := false }
    set_style_mask_async s mask
  else s

/-- `UnownedWindow::set_decorations` (window.rs:1024-1060). -/
def set_decorations (s : Sys) (decorations : Bool) : Sys :=
  if decorations ≠ s.decorations then
    let s := { s with decorations := decorations }
    let fullscreen := s.shared.fullscreen.isSome
    let resizable := s.shared.resizable
    if fullscreen then s
    else
      let base : StyleMask :=
        if decorations then
          { titled := true, closable := true, miniaturizable := true, resizable := true }
        else
          { titled := false, closable := false, miniaturizable := false, resizable := true }
      let new_mask := if !resizable then { base with resizable := false } else base
      set_style_mask_async s new_mask
  else s

/-- `UnownedWindow::set_always_on_top` (window.rs:1067-1075). -/
def set_always_on_top (s : Sys) (always_on_top : Bool) : Sys :=
  if always_on_top then set_level_async s WindowLevel.floating
  else set_level_async s WindowLevel.normal

/-- The monitor the new fullscreen mode targets (window.rs:853-865):
`Borderless(Some m)` targets m, `Borderless(None)` targets the window's
current monitor (`current_monitor_inner`), `Exclusive` targets its video
mode's monitor. -/
def newScreenFor (s : Sys) : Fullscreen → DisplayId
  | Fullscreen.Borderless (some m) => m
  | Fullscreen.Borderless none => s.surface.screen
  | Fullscreen.Exclusive vm => vm.monitor

/-- The point the window is moved to before toggling (window.rs:870-874): the
target screen's frame origin with `origin.y += size.height`, i.e. the screen's
top-left corner. -/
def moveTopLeftPoint (env : Env) (d : DisplayId) : Int × Int :=
  ((env.screenFrame d).x, (env.screenFrame d).y + (env.screenFrame d).h)

/-- Cross-monitor relocation phase of `set_fullscreen` (window.rs:849-877): if
the target mode's monitor differs from the window's current screen, move the
window's top-left corner to that monitor's frame. -/
def sfMove (env : Env) (s : Sys) (fs : Fullscreen) : Sys :=
  let new_screen := newScreenFor s fs
  if s.surface.screen ≠ new_screen then
    set_frame_top_left_point_async s (moveTopLeftPoint env new_screen)
  else s

/-- Does an `Option Fullscreen` hold a `Borderless` mode
(`matches!(old_fullscreen, Some(Fullscreen::Borderless(_)))`)? -/
def isSomeBorderless : Option Fullscreen → Bool
  | some (Fullscreen.Borderless _) => true
  | _ => false

/-- Exclusive-entry phase of `set_fullscreen` (window.rs:879-949): save the
presentation options when coming from Borderless, reserve and run the fade
(best-effort), call `CGDisplayCapture` and `CGDisplaySetDisplayMode`. The two
`assert!`s at window.rs:922 and 931 are modelled as `Except.error` carrying
the system state at the panic point. -/
def sfExclusiveEntry (env : Env) (s : Sys) (old_fullscreen : Option Fullscreen)
    (video_mode : VideoMode) : Except Sys Sys :=
  let display_id := video_mode.monitor
  let s := if isSomeBorderless old_fullscreen then savePresentationOpts s else s
  let fade_token_ok := env.fadeReservationOk
  let s := if fade_token_ok then emitCmd s (Cmd.displayFade true) else s
  let s := emitCmd s (Cmd.captureDisplay display_id)
  if env.captureOk display_id then
    let s := addCapture s display_id
    let s := emitCmd s (Cmd.setDisplayVideoMode display_id video_mode.nativeMode)
    if env.setModeOk display_id video_mode.nativeMode then
      let s := if fade_token_ok then emitCmd s (Cmd.displayFade false) else s
      Except.ok s
    else Except.error s
  else Except.error s

/-- Commit phase of `set_fullscreen` (window.rs:951-1021): record the new mode
and run the per-pair handler. -/
def sfCommit (s : Sys) (old_fullscreen new_fullscreen : Option Fullscreen) : Sys :=
  let s := { s with shared := { s.shared with fullscreen := new_fullscreen } }
  match old_fullscreen, new_fullscreen with
  | none, some _ => toggle_full_screen_async s true
  | some (Fullscreen.Borderless _), none => toggle_full_screen_async s false
  | some (Fullscreen.Exclusive vm), none =>
      toggle_full_screen_async (restore_display_mode_async s vm.monitor) false
  | some (Fullscreen.Borderless _), some (Fullscreen.Exclusive _) =>
      let s := savePresentationOpts s
      let s := setAppPresentationOptions s exclusiveEnterOpts
      set_level_async s WindowLevel.aboveShielding
  | some (Fullscreen.Exclusive vm), some (Fullscreen.Borderless _) =>
      let opts := s.shared.save_presentation_opts.getD exclusiveExitDefaultOpts
      let s := setAppPresentationOptions s opts
      let s := restore_display_mode_async s vm.monitor
      set_level_async s WindowLevel.normal
  | _, _ => s

/-- `UnownedWindow::set_fullscreen` (window.rs:832-1022). A result of
`Except.error` is the assertion panic on display-capture or video-mode
failure; the carried value is the system state at the panic point. -/
def set_fullscreen (env : Env) (s : Sys) (fullscreen : Option Fullscreen) :
    Except Sys Sys :=
  if s.shared.is_simple_fullscreen then Except.ok s
  else if s.shared.in_fullscreen_transition then
    Except.ok { s with shared := { s.shared with target_fullscreen := some fullscreen } }
  else
    let old_fullscreen := s.shared.fullscreen
    if fullscreen = old_fullscreen then Except.ok s
    else
      match fullscreen with
      | none => Except.ok (sfCommit s old_fullscreen none)
      | some (Fullscreen.Borderless b) =>
          Except.ok (sfCommit (sfMove env s (Fullscreen.Borderless b))
            old_fullscreen (some (Fullscreen.Borderless b)))
      | some (Fullscreen.Exclusive vm) =>
          match sfExclusiveEntry env (sfMove env s (Fullscreen.Exclusive vm))
              old_fullscreen vm with
          | Except.error sp => Except.error sp
          | Except.ok s2 =>
              Except.ok (sfCommit s2 old_fullscreen (some (Fullscreen.Exclusive vm)))

/-- `WindowExtMacOS::set_simple_fullscreen` (window.rs:1192-1272). -/
def set_simple_fullscreen (env : Env) (s : Sys) (fullscreen : Bool) : Bool × Sys :=
  let is_native_fullscreen := s.shared.fullscreen.isSome
  let is_simple_fullscreen := s.shared.is_simple_fullscreen
  if is_native_fullscreen || (fullscreen && is_simple_fullscreen)
      || (!fullscreen && !is_simple_fullscreen) then
    (false, s)
  else if fullscreen then
    let s := { s with shared := { s.shared with
        standard_frame := some (contentRectForFrameRect env s.surface.styleMask
          s.surface.frame) } }
    let s := { s with shared := { s.shared with saved_style := some s.surface.styleMask } }
    let s := savePresentationOpts s
    let s := { s with shared := { s.shared with is_simple_fullscreen := true } }
    let s := setAppPresentationOptions s simpleFullscreenOpts
    let s := toggle_style_mask s StyleBit.titled false
    let screen_frame := env.screenFrame s.surface.screen
    let s := setFrame_display s screen_frame
    let s := toggle_style_mask s StyleBit.miniaturizable false
    let s := toggle_style_mask s StyleBit.resizable false
    let s := setMovable s false
    (true, s)
  else
    let p := saved_style s
    let s := set_style_mask_async p.2 p.1
    let s := { s with shared := { s.shared with is_simple_fullscreen := false } }
    let s := match s.shared.save_presentation_opts with
      | some presentation_opts => setAppPresentationOptions s presentation_opts
      | none => s
    let frame := saved_standard_frame s.shared
    let s := setFrame_display s frame
    let s := setMovable s true
    (true, s)

/-- Modelled from the spec: the delegate transition-begin callback
(`windowWillEnterFullScreen` / `windowWillExitFullScreen` in
window_delegate.rs, not under src/) — sets `in_fullscreen_transition`
(spec 4.3: `on_transition_will_begin` sets `in_transition = true`). -/
def on_transition_will_begin (s : Sys) : Sys :=
  { s with shared := { s.shared with in_fullscreen_transition := true } }

/-- Modelled from the spec: the tail of the delegate transition-end callback
(window_delegate.rs, not under src/) — clears `in_fullscreen_transition` and
applies a deferred `target_fullscreen`, if any, exactly once via
`set_fullscreen` (spec 4.3). -/
def finishTransition (env : Env) (s : Sys) : Except Sys Sys :=
  let s := { s with shared := { s.shared with in_fullscreen_transition := false } }
  match s.shared.target_fullscreen with
  | some target =>
      let s := { s with shared := { s.shared with target_fullscreen := none } }
      set_fullscreen env s target
  | none => Except.ok s

/-- Modelled from the spec: the delegate transition-end callback
(`windowDidEnterFullScreen` / `windowDidExitFullScreen` in window_delegate.rs,
not under src/) — on exit first restores state via
`restore_state_from_fullscreen` (which is under src/), clears
`in_fullscreen_transition`, then applies a deferred `target_fullscreen`, if
any, exactly once via `set_fullscreen` (spec 4.3). -/
def on_transition_did_end (env : Env) (s : Sys) (entered : Bool) : Except Sys Sys :=
  let s := if entered then s else restore_state_from_fullscreen s
  finishTransition env s

/-- The state a call ended in, whether it returned normally or panicked. -/
def resState : Except Sys Sys → Sys
  | Except.ok s => s
  | Except.error s => s

/-- Did the call end in an assertion panic? -/
def exceptPanicked : Except Sys Sys → Bool
  | Except.ok _ => false
  | Except.error _ => true

/-- Is a command a native fullscreen toggle or a display capture? (Used to
state that simple fullscreen issues neither.) -/
def isNativeToggleOrCapture : Cmd → Bool
  | Cmd.toggleNativeFullscreen _ => true
  | Cmd.captureDisplay _ => true
  | _ => false

/-- The state of a freshly created window (window.rs:321-336 and 388-474):
`fullscreen = None`, no transition, nothing saved, nothing captured, empty
trace; resizability, maximized flag, style mask, frame, presentation options
and screen come from the window attributes and the OS. -/
def initSys (resizable maximized : Bool) (mask : StyleMask) (frame : Rect)
    (opts : PresentationOptions) (screen : DisplayId) : Sys :=
  { shared :=
      { resizable := resizable, fullscreen := none, in_fullscreen_transition := false,
        target_fullscreen := none, maximized := maximized, standard_frame := none,
        is_simple_fullscreen := false, saved_style := none,
        save_presentation_opts := none, saved_desktop_display_mode := none },
    surface :=
      { frame := frame, styleMask := mask, screen := screen,
        level := WindowLevel.normal, movable := true, zoomed := false },
    app_presentation_options := opts,
    captured := [], decorations := true, cmds := [] }

/-- The public operations and OS callbacks through which the shared state is
mutated. -/
inductive Op where
  | setFS : Option Fullscreen → Op
  | setSimpleFS : Bool → Op
  | restoreFS : Op
  | willBegin : Op
  | didEnd : Bool → Op
  | setResizableOp : Bool → Op
  | setDecorationsOp : Bool → Op
  | setMaximizedOp : Bool → Op
  | setAlwaysOnTopOp : Bool → Op
  | queryZoomed : Op

/-- Run one operation. Operations that cannot panic are wrapped in `Except.ok`. -/
def applyOp (env : Env) (s : Sys) : Op → Except Sys Sys
  | Op.setFS mode => set_fullscreen env s mode
  | Op.setSimpleFS b => Except.ok (set_simple_fullscreen env s b).2
  | Op.restoreFS => Except.ok (restore_state_from_fullscreen s)
  | Op.willBegin => Except.ok (on_transition_will_begin s)
  | Op.didEnd entered => on_transition_did_end env s entered
  | Op.setResizableOp b => Except.ok (set_resizable s b)
  | Op.setDecorationsOp b => Except.ok (set_decorations s b)
  | Op.setMaximizedOp b => Except.ok (set_maximized s b)
  | Op.setAlwaysOnTopOp b => Except.ok (set_always_on_top s b)
  | Op.queryZoomed => Except.ok (is_zoomed s).2

/-- States reachable from a fresh window through the public operations and the
OS callbacks, under arbitrary OS conditions at each step. A panicking step
terminates the process and yields no new state. -/
inductive Reachable : Sys → Prop where
  | init (resizable maximized : Bool) (mask : StyleMask) (frame : Rect)
      (opts : PresentationOptions) (screen : DisplayId) :
      Reachable (initSys resizable maximized mask frame opts screen)
  | step {s s' : Sys} (env : Env) (op : Op) :
      Reachable s → applyOp env s op = Except.ok s' → Reachable s'

/-! ### Concrete environments and runs used by witnesses and counterexamples -/

/-- An environment in which every Display call succeeds; screen `d` has frame
`(1000*d, 0, 800, 600)`; title bars are 28 points tall. -/
def cenv : Env :=
  { captureOk := fun _ => true, setModeOk := fun _ _ => true, fadeReservationOk := true,
    screenFrame := fun d => ⟨1000 * Int.ofNat d, 0, 800, 600⟩, titleBarHeight := 28 }

/-- A decorated, resizable style mask (the default window creation mask,
window.rs:190-195). -/
def cmask : StyleMask :=
  { titled := true, closable := true, miniaturizable := true, resizable := true }

/-- A concrete window frame. -/
def cframe : Rect := ⟨10, 20, 640, 480⟩

/-- Default presentation options: no system UI suppressed. -/
def copts : PresentationOptions :=
  { fullScreen := false, hideDock := false, hideMenuBar := false,
    autoHideDock := false, autoHideMenuBar := false }

/-- A freshly created resizable window on screen 0. -/
def cinit : Sys := initSys true false cmask cframe copts 0

/-- An environment in which `CGDisplayCapture` fails on every display. -/
def c1EnvFail : Env := { cenv with captureOk := fun _ => false }

/-- After requesting exclusive fullscreen on display 1 from the fresh window. -/
def c2s1 : Sys := resState (set_fullscreen cenv cinit (some (Fullscreen.Exclusive ⟨1, 10⟩)))

/-- After then requesting exclusive fullscreen on display 2 (a different monitor). -/
def c2s2 : Sys := resState (set_fullscreen cenv c2s1 (some (Fullscreen.Exclusive ⟨2, 20⟩)))

/-- After then leaving fullscreen entirely. Display 1 is still captured here. -/
def c2s3 : Sys := resState (set_fullscreen cenv c2s2 none)

/-- Borderless fullscreen requested from the fresh window (toggle in flight). -/
def c3d1 : Sys := resState (set_fullscreen cenv cinit (some (Fullscreen.Borderless none)))

/-- The OS announces the enter transition. -/
def c3d2 : Sys := on_transition_will_begin c3d1

/-- The OS completes the enter transition. -/
def c3d3 : Sys := resState (on_transition_did_end cenv c3d2 true)

/-- Leaving fullscreen is requested (exit toggle in flight). -/
def c3d4 : Sys := resState (set_fullscreen cenv c3d3 none)

/-- The OS announces the exit transition: `in_fullscreen_transition` is true
while `fullscreen` is already `None`. -/
def c3d5 : Sys := on_transition_will_begin c3d4

/-- Simple fullscreen is entered during the exit transition (the guard at
window.rs:1201 only checks `fullscreen.is_some()`): now both
`in_fullscreen_transition` and `is_simple_fullscreen` hold. -/
def c3d6 : Sys := (set_simple_fullscreen cenv c3d5 true).2

/-- A fresh window with `in_fullscreen_transition` set (used as a witness input). -/
def c3defer : Sys := on_transition_will_begin cinit

/-- The fresh window made always-on-top: window level is now `floating`. -/
def c5x0 : Sys := set_always_on_top cinit true

/-- Borderless fullscreen entered while always-on-top. -/
def c5x1 : Sys := resState (set_fullscreen cenv c5x0 (some (Fullscreen.Borderless none)))

/-- Switched from Borderless to Exclusive fullscreen. -/
def c5x2 : Sys := resState (set_fullscreen cenv c5x1 (some (Fullscreen.Exclusive ⟨0, 10⟩)))

/-- Reverted from Exclusive back to Borderless: the window level is now the
base level, not the floating level it had before entering Exclusive. -/
def c5x3 : Sys := resState (set_fullscreen cenv c5x2 (some (Fullscreen.Borderless none)))

/-- A window in Borderless fullscreen (witness input for the exclusive round trip). -/
def c5pre : Sys := resState (set_fullscreen cenv cinit (some (Fullscreen.Borderless none)))

/-- Exclusive fullscreen on display 1 entered from Borderless (witness input). -/
def c5w1 : Sys := resState (set_fullscreen cenv c5pre (some (Fullscreen.Exclusive ⟨1, 10⟩)))

/-- Reverted from Exclusive back to Borderless (witness input). -/
def c5w2 : Sys := resState (set_fullscreen cenv c5w1 (some (Fullscreen.Borderless none)))

/-- Simple fullscreen entered from the fresh (titled) window. -/
def c7s1 : Sys := (set_simple_fullscreen cenv cinit true).2

/-- Simple fullscreen exited again: the window frame is now the saved content
rectangle (title bar excluded), not the original frame. -/
def c7s2 : Sys := (set_simple_fullscreen cenv c7s1 false).2

/-- A window in Borderless fullscreen (witness input for deferred resizability). -/
def c8pre : Sys := resState (set_fullscreen cenv cinit (some (Fullscreen.Borderless none)))

/-- A window with simple fullscreen active (witness input). -/
def c9simple : Sys := (set_simple_fullscreen cenv cinit true).2

/-- A window with native fullscreen active (witness input). -/
def c9native : Sys := resState (set_fullscreen cenv cinit (some (Fullscreen.Borderless none)))

/-- A borderless, non-resizable window (witness input for the zoom query). -/
def c10state : Sys :=
  initSys false false
    { titled := false, closable := false, miniaturizable := false, resizable := false }
    cframe copts 0


/-! ### Helper lemmas about the phases and primitives -/

theorem sfMove_shared (env : Env) (s : Sys) (fs : Fullscreen) :
    (sfMove env s fs).shared = s.shared := by
  simp only [sfMove, set_frame_top_left_point_async, emitCmd]
  split <;> rfl

theorem sfMove_captured (env : Env) (s : Sys) (fs : Fullscreen) :
    (sfMove env s fs).captured = s.captured := by
  simp only [sfMove, set_frame_top_left_point_async, emitCmd]
  split <;> rfl

theorem sfMove_app (env : Env) (s : Sys) (fs : Fullscreen) :
    (sfMove env s fs).app_presentation_options = s.app_presentation_options := by
  simp only [sfMove, set_frame_top_left_point_async, emitCmd]
  split <;> rfl

theorem sfMove_level (env : Env) (s : Sys) (fs : Fullscreen) :
    (sfMove env s fs).surface.level = s.surface.level := by
  simp only [sfMove, set_frame_top_left_point_async, emitCmd]
  split <;> rfl

theorem sfMove_styleMask (env : Env) (s : Sys) (fs : Fullscreen) :
    (sfMove env s fs).surface.styleMask = s.surface.styleMask := by
  simp only [sfMove, set_frame_top_left_point_async, emitCmd]
  split <;> rfl

theorem sfMove_cmds_prefix (env : Env) (s : Sys) (fs : Fullscreen) :
    ∃ l, (sfMove env s fs).cmds = s.cmds ++ l := by
  simp only [sfMove, set_frame_top_left_point_async, emitCmd]
  split
  · exact ⟨_, rfl⟩
  · exact ⟨[], by simp⟩

theorem sfExclusiveEntry_error_iff (env : Env) (s : Sys) (old : Option Fullscreen)
    (vm : VideoMode) (t : Sys)
    (h : sfExclusiveEntry env s old vm = Except.error t) :
    env.captureOk vm.monitor = false ∨ env.setModeOk vm.monitor vm.nativeMode = false := by
  cases hc : env.captureOk vm.monitor
  · exact Or.inl rfl
  · cases hm : env.setModeOk vm.monitor vm.nativeMode
    · exact Or.inr rfl
    · simp [sfExclusiveEntry, hc, hm] at h

theorem sfExclusiveEntry_error_shared (env : Env) (s : Sys) (old : Option Fullscreen)
    (vm : VideoMode) (t : Sys)
    (h : sfExclusiveEntry env s old vm = Except.error t) :
    t.shared = (if isSomeBorderless old then
        { s.shared with save_presentation_opts := some s.app_presentation_options }
      else s.shared) := by
  cases hbl : isSomeBorderless old <;>
    cases hc : env.captureOk vm.monitor <;>
      cases hm : env.setModeOk vm.monitor vm.nativeMode <;>
        cases hf : env.fadeReservationOk <;>
          simp [sfExclusiveEntry, savePresentationOpts, addCapture, emitCmd,
            hbl, hc, hm, hf] at h <;>
            (subst h; simp)

theorem sfExclusiveEntry_ok_fields (env : Env) (s : Sys) (old : Option Fullscreen)
    (vm : VideoMode) (t : Sys)
    (h : sfExclusiveEntry env s old vm = Except.ok t) :
    t.surface = s.surface ∧
    t.app_presentation_options = s.app_presentation_options ∧
    t.shared = (if isSomeBorderless old then
        { s.shared with save_presentation_opts := some s.app_presentation_options }
      else s.shared) ∧
    t.captured = (if vm.monitor ∈ s.captured then s.captured else vm.monitor :: s.captured) := by
  cases hbl : isSomeBorderless old <;>
    cases hc : env.captureOk vm.monitor <;>
      cases hm : env.setModeOk vm.monitor vm.nativeMode <;>
        cases hf : env.fadeReservationOk <;>
          simp [sfExclusiveEntry, savePresentationOpts, addCapture, emitCmd,
            hbl, hc, hm, hf] at h <;>
            (subst h; simp)

theorem sfExclusiveEntry_ok_exists (env : Env) (s : Sys) (old : Option Fullscreen)
    (vm : VideoMode)
    (hcap : env.captureOk vm.monitor = true)
    (hmode : env.setModeOk vm.monitor vm.nativeMode = true) :
    ∃ t, sfExclusiveEntry env s old vm = Except.ok t := by
  cases h : sfExclusiveEntry env s old vm with
  | ok t => exact ⟨t, rfl⟩
  | error t =>
      rcases sfExclusiveEntry_error_iff env s old vm t h with h' | h' <;> simp_all

theorem sfExclusiveEntry_ok_mem (env : Env) (s : Sys) (old : Option Fullscreen)
    (vm : VideoMode) (t : Sys)
    (h : sfExclusiveEntry env s old vm = Except.ok t) :
    vm.monitor ∈ t.captured := by
  have hf := (sfExclusiveEntry_ok_fields env s old vm t h).2.2.2
  rw [hf]
  split
  · assumption
  · exact List.mem_cons_self _ _

theorem sfExclusiveEntry_cmds_prefix (env : Env) (s : Sys) (old : Option Fullscreen)
    (vm : VideoMode) :
    ∃ l, (resState (sfExclusiveEntry env s old vm)).cmds = s.cmds ++ l := by
  cases hbl : isSomeBorderless old <;>
    cases hc : env.captureOk vm.monitor <;>
      cases hm : env.setModeOk vm.monitor vm.nativeMode <;>
        cases hf : env.fadeReservationOk <;>
          (simp only [sfExclusiveEntry, savePresentationOpts, addCapture, emitCmd,
             hbl, hc, hm, hf, if_true, if_false, Bool.false_eq_true, Bool.true_eq_false,
             ite_true, ite_false, resState, List.append_assoc]
           exact ⟨_, rfl⟩)

theorem sfCommit_fullscreen (s : Sys) (old new : Option Fullscreen) :
    (sfCommit s old new).shared.fullscreen = new := by
  simp only [sfCommit, toggle_full_screen_async, restore_display_mode_async,
    savePresentationOpts, setAppPresentationOptions, set_level_async, emitCmd]
  split <;> rfl

theorem sfCommit_simple (s : Sys) (old new : Option Fullscreen) :
    (sfCommit s old new).shared.is_simple_fullscreen = s.shared.is_simple_fullscreen := by
  simp only [sfCommit, toggle_full_screen_async, restore_display_mode_async,
    savePresentationOpts, setAppPresentationOptions, set_level_async, emitCmd]
  split <;> rfl

theorem sfCommit_transition (s : Sys) (old new : Option Fullscreen) :
    (sfCommit s old new).shared.in_fullscreen_transition
      = s.shared.in_fullscreen_transition := by
  simp only [sfCommit, toggle_full_screen_async, restore_display_mode_async,
    savePresentationOpts, setAppPresentationOptions, set_level_async, emitCmd]
  split <;> rfl

theorem sfCommit_styleMask (s : Sys) (old new : Option Fullscreen) :
    (sfCommit s old new).surface.styleMask = s.surface.styleMask := by
  simp only [sfCommit, toggle_full_screen_async, restore_display_mode_async,
    savePresentationOpts, setAppPresentationOptions, set_level_async, emitCmd]
  split <;> rfl

theorem sfCommit_resizable (s : Sys) (old new : Option Fullscreen) :
    (sfCommit s old new).shared.resizable = s.shared.resizable := by
  simp only [sfCommit, toggle_full_screen_async, restore_display_mode_async,
    savePresentationOpts, setAppPresentationOptions, set_level_async, emitCmd]
  split <;> rfl

theorem sfCommit_captured_exclusive (s : Sys) (old : Option Fullscreen) (vm : VideoMode) :
    (sfCommit s old (some (Fullscreen.Exclusive vm))).captured = s.captured := by
  simp only [sfCommit, toggle_full_screen_async, restore_display_mode_async,
    savePresentationOpts, setAppPresentationOptions, set_level_async, emitCmd]
  split <;> first | rfl | simp_all

theorem sfCommit_cmds_prefix (s : Sys) (old new : Option Fullscreen) :
    ∃ l, (sfCommit s old new).cmds = s.cmds ++ l := by
  simp only [sfCommit, toggle_full_screen_async, restore_display_mode_async,
    savePresentationOpts, setAppPresentationOptions, set_level_async, emitCmd]
  split <;>
    (simp only [List.append_assoc]
     first
       | exact ⟨_, rfl⟩
       | exact ⟨[], by simp⟩)

theorem sfCommit_bl_to_excl (s : Sys) (b : Option DisplayId) (vm : VideoMode) :
    sfCommit s (some (Fullscreen.Borderless b)) (some (Fullscreen.Exclusive vm)) =
      { s with
        shared := { s.shared with
          fullscreen := some (Fullscreen.Exclusive vm),
          save_presentation_opts := some s.app_presentation_options },
        surface := { s.surface with level := WindowLevel.aboveShielding },
        app_presentation_options := exclusiveEnterOpts,
        cmds := s.cmds ++ [Cmd.setAppPresentationOptions exclusiveEnterOpts,
                           Cmd.setWindowLevel WindowLevel.aboveShielding] } := by
  simp [sfCommit, savePresentationOpts, setAppPresentationOptions, set_level_async, emitCmd]

theorem sfCommit_excl_to_bl (s : Sys) (vm : VideoMode) (b : Option DisplayId) :
    sfCommit s (some (Fullscreen.Exclusive vm)) (some (Fullscreen.Borderless b)) =
      { s with
        shared := { s.shared with fullscreen := some (Fullscreen.Borderless b) },
        surface := { s.surface with level := WindowLevel.normal },
        app_presentation_options := s.shared.save_presentation_opts.getD exclusiveExitDefaultOpts,
        captured := s.captured.erase vm.monitor,
        cmds := s.cmds ++ [Cmd.setAppPresentationOptions
            (s.shared.save_presentation_opts.getD exclusiveExitDefaultOpts),
          Cmd.restoreDisplayMode vm.monitor,
          Cmd.setWindowLevel WindowLevel.normal] } := by
  simp [sfCommit, savePresentationOpts, setAppPresentationOptions, set_level_async,
    restore_display_mode_async, emitCmd]

theorem set_fullscreen_of_simple (env : Env) (s : Sys) (mode : Option Fullscreen)
    (h : s.shared.is_simple_fullscreen = true) :
    set_fullscreen env s mode = Except.ok s := by
  simp [set_fullscreen, h]

theorem set_fullscreen_ok_cases (env : Env) (s : Sys) (mode : Option Fullscreen) (r : Sys)
    (h : set_fullscreen env s mode = Except.ok r) :
    r = s ∨
    r = { s with shared := { s.shared with target_fullscreen := some mode } } ∨
    ∃ s2, r = sfCommit s2 s.shared.fullscreen mode ∧
      s2.shared.is_simple_fullscreen = s.shared.is_simple_fullscreen ∧
      s2.shared.in_fullscreen_transition = s.shared.in_fullscreen_transition ∧
      s2.shared.fullscreen = s.shared.fullscreen ∧
      s2.shared.resizable = s.shared.resizable ∧
      s2.surface.styleMask = s.surface.styleMask ∧
      (∀ vm, mode = some (Fullscreen.Exclusive vm) → vm.monitor ∈ s2.captured) := by
  unfold set_fullscreen at h
  cases h1 : s.shared.is_simple_fullscreen with
  | true =>
      rw [if_pos (by rw [h1])] at h
      exact Or.inl (Except.ok.inj h).symm
  | false =>
      rw [if_neg (by rw [h1]; exact Bool.false_ne_true)] at h
      cases h2 : s.shared.in_fullscreen_transition with
      | true =>
          rw [if_pos (by rw [h2])] at h
          exact Or.inr (Or.inl (Except.ok.inj h).symm)
      | false =>
          rw [if_neg (by rw [h2]; exact Bool.false_ne_true)] at h
          by_cases h3 : mode = s.shared.fullscreen
          · rw [if_pos h3] at h
            exact Or.inl (Except.ok.inj h).symm
          · rw [if_neg h3] at h
            refine Or.inr (Or.inr ?_)
            match mode, h with
            | none, h =>
                refine ⟨s, (Except.ok.inj h).symm, h1, h2, rfl, rfl, rfl, ?_⟩
                intro vm hvm
                exact absurd hvm (by simp)
            | some (Fullscreen.Borderless b), h =>
                refine ⟨sfMove env s (Fullscreen.Borderless b), (Except.ok.inj h).symm,
                  ?_, ?_, ?_, ?_, ?_, ?_⟩
                · rw [sfMove_shared]; exact h1
                · rw [sfMove_shared]; exact h2
                · rw [sfMove_shared]
                · rw [sfMove_shared]
                · rw [sfMove_styleMask]
                · intro vm hvm
                  exact absurd hvm (by simp)
            | some (Fullscreen.Exclusive vm), h =>
                dsimp only at h
                cases hE : sfExclusiveEntry env (sfMove env s (Fullscreen.Exclusive vm))
                    s.shared.fullscreen vm with
                | error sp =>
                    rw [hE] at h
                    exact absurd h (by simp)
                | ok t =>
                    rw [hE] at h
                    dsimp only at h
                    obtain ⟨hsur, happ, hsh, hcap⟩ :=
                      sfExclusiveEntry_ok_fields env _ _ vm t hE
                    refine ⟨t, (Except.ok.inj h).symm, ?_, ?_, ?_, ?_, ?_, ?_⟩
                    · rw [hsh]; cases isSomeBorderless s.shared.fullscreen <;>
                        simp [sfMove_shared, h1]
                    · rw [hsh]; cases isSomeBorderless s.shared.fullscreen <;>
                        simp [sfMove_shared, h2]
                    · rw [hsh]; cases isSomeBorderless s.shared.fullscreen <;>
                        simp [sfMove_shared]
                    · rw [hsh]; cases isSomeBorderless s.shared.fullscreen <;>
                        simp [sfMove_shared]
                    · rw [hsur, sfMove_styleMask]
                    · intro vm' hvm'
                      injection Option.some.inj hvm' with h6
                      subst h6
                      exact sfExclusiveEntry_ok_mem env _ _ vm t hE

theorem set_fullscreen_ok_simple_eq (env : Env) (s : Sys) (mode : Option Fullscreen) (r : Sys)
    (h : set_fullscreen env s mode = Except.ok r) :
    r.shared.is_simple_fullscreen = s.shared.is_simple_fullscreen := by
  rcases set_fullscreen_ok_cases env s mode r h with hc | hc | ⟨s2, hr, hsim, _, _, _, _, _⟩
  · rw [hc]
  · rw [hc]
  · rw [hr, sfCommit_simple, hsim]

theorem set_fullscreen_ok_transition_eq (env : Env) (s : Sys) (mode : Option Fullscreen)
    (r : Sys) (h : set_fullscreen env s mode = Except.ok r) :
    r.shared.in_fullscreen_transition = s.shared.in_fullscreen_transition := by
  rcases set_fullscreen_ok_cases env s mode r h with hc | hc | ⟨s2, hr, _, htr, _, _, _, _⟩
  · rw [hc]
  · rw [hc]
  · rw [hr, sfCommit_transition, htr]

theorem set_fullscreen_ok_capture (env : Env) (s : Sys) (mode : Option Fullscreen) (r : Sys)
    (h : set_fullscreen env s mode = Except.ok r)
    (hs : ∀ vm, s.shared.fullscreen = some (Fullscreen.Exclusive vm) → vm.monitor ∈ s.captured) :
    ∀ vm, r.shared.fullscreen = some (Fullscreen.Exclusive vm) → vm.monitor ∈ r.captured := by
  rcases set_fullscreen_ok_cases env s mode r h with hc | hc | ⟨s2, hr, _, _, _, _, _, hmem⟩
  · rw [hc]; exact hs
  · rw [hc]; exact hs
  · intro vm hvm
    rw [hr, sfCommit_fullscreen] at hvm
    subst hvm
    rw [hr, sfCommit_captured_exclusive]
    exact hmem vm rfl

theorem is_zoomed_shared (s : Sys) : ((is_zoomed s).2).shared = s.shared := by
  cases hn : !(s.surface.styleMask.titled && s.surface.styleMask.resizable) <;>
    simp [is_zoomed, set_style_mask_async, set_style_mask_sync, emitCmd, hn]

theorem is_zoomed_captured (s : Sys) : ((is_zoomed s).2).captured = s.captured := by
  cases hn : !(s.surface.styleMask.titled && s.surface.styleMask.resizable) <;>
    simp [is_zoomed, set_style_mask_async, set_style_mask_sync, emitCmd, hn]

theorem is_zoomed_styleMask (s : Sys) :
    ((is_zoomed s).2).surface.styleMask = s.surface.styleMask := by
  cases hn : !(s.surface.styleMask.titled && s.surface.styleMask.resizable) <;>
    simp [is_zoomed, set_style_mask_async, set_style_mask_sync, emitCmd, hn]

theorem set_maximized_fullscreen (s : Sys) (b : Bool) :
    (set_maximized s b).shared.fullscreen = s.shared.fullscreen := by
  simp only [set_maximized]
  split
  · rw [is_zoomed_shared]
  · simp [set_maximized_async, emitCmd, is_zoomed_shared]

theorem set_maximized_captured (s : Sys) (b : Bool) :
    (set_maximized s b).captured = s.captured := by
  simp only [set_maximized]
  split
  · rw [is_zoomed_captured]
  · simp [set_maximized_async, emitCmd, is_zoomed_captured]

theorem set_maximized_simple (s : Sys) (b : Bool) :
    (set_maximized s b).shared.is_simple_fullscreen = s.shared.is_simple_fullscreen := by
  simp only [set_maximized]
  split
  · rw [is_zoomed_shared]
  · simp [set_maximized_async, emitCmd, is_zoomed_shared]

theorem set_maximized_styleMask (s : Sys) (b : Bool) :
    (set_maximized s b).surface.styleMask = s.surface.styleMask := by
  simp only [set_maximized]
  split
  · rw [is_zoomed_styleMask]
  · simp [set_maximized_async, emitCmd, is_zoomed_styleMask]

theorem restore_fullscreen (s : Sys) :
    (restore_state_from_fullscreen s).shared.fullscreen = none := by
  cases hr : s.shared.resizable <;>
    simp [restore_state_from_fullscreen, saved_style, set_style_mask_async,
      set_style_mask_sync, emitCmd, hr, set_maximized_fullscreen]

theorem restore_captured (s : Sys) :
    (restore_state_from_fullscreen s).captured = s.captured := by
  cases hr : s.shared.resizable <;>
    simp [restore_state_from_fullscreen, saved_style, set_style_mask_async,
      set_style_mask_sync, emitCmd, hr, set_maximized_captured]

theorem restore_simple (s : Sys) :
    (restore_state_from_fullscreen s).shared.is_simple_fullscreen
      = s.shared.is_simple_fullscreen := by
  cases hr : s.shared.resizable <;>
    simp [restore_state_from_fullscreen, saved_style, set_style_mask_async,
      set_style_mask_sync, emitCmd, hr, set_maximized_simple]

theorem restore_styleMask_resizable (s : Sys) :
    (restore_state_from_fullscreen s).surface.styleMask.resizable = s.shared.resizable := by
  cases hr : s.shared.resizable <;>
    simp [restore_state_from_fullscreen, saved_style, set_style_mask_async,
      set_style_mask_sync, emitCmd, hr, set_maximized_styleMask]

theorem set_resizable_resizable (s : Sys) (b : Bool) :
    (set_resizable s b).shared.resizable = b := by
  cases hf : s.shared.fullscreen.isSome <;> cases b <;>
    simp [set_resizable, set_style_mask_async, set_style_mask_sync, emitCmd, hf]

theorem set_resizable_fullscreen (s : Sys) (b : Bool) :
    (set_resizable s b).shared.fullscreen = s.shared.fullscreen := by
  cases hf : s.shared.fullscreen.isSome <;> cases b <;>
    simp [set_resizable, set_style_mask_async, set_style_mask_sync, emitCmd, hf]

theorem set_resizable_simple (s : Sys) (b : Bool) :
    (set_resizable s b).shared.is_simple_fullscreen = s.shared.is_simple_fullscreen := by
  cases hf : s.shared.fullscreen.isSome <;> cases b <;>
    simp [set_resizable, set_style_mask_async, set_style_mask_sync, emitCmd, hf]

theorem set_resizable_transition (s : Sys) (b : Bool) :
    (set_resizable s b).shared.in_fullscreen_transition
      = s.shared.in_fullscreen_transition := by
  cases hf : s.shared.fullscreen.isSome <;> cases b <;>
    simp [set_resizable, set_style_mask_async, set_style_mask_sync, emitCmd, hf]

theorem set_resizable_captured (s : Sys) (b : Bool) :
    (set_resizable s b).captured = s.captured := by
  cases hf : s.shared.fullscreen.isSome <;> cases b <;>
    simp [set_resizable, set_style_mask_async, set_style_mask_sync, emitCmd, hf]

theorem set_resizable_styleMask_of_fullscreen (s : Sys) (b : Bool)
    (h : s.shared.fullscreen.isSome = true) :
    (set_resizable s b).surface.styleMask = s.surface.styleMask := by
  simp [set_resizable, h]

theorem set_decorations_shared (s : Sys) (b : Bool) :
    (set_decorations s b).shared = s.shared := by
  simp only [set_decorations]
  split
  · split
    · rfl
    · split <;> simp [set_style_mask_async, set_style_mask_sync, emitCmd]
  · rfl

theorem set_decorations_captured (s : Sys) (b : Bool) :
    (set_decorations s b).captured = s.captured := by
  simp only [set_decorations]
  split
  · split
    · rfl
    · split <;> simp [set_style_mask_async, set_style_mask_sync, emitCmd]
  · rfl

theorem set_always_on_top_shared (s : Sys) (b : Bool) :
    (set_always_on_top s b).shared = s.shared := by
  cases b <;> simp [set_always_on_top, set_level_async, emitCmd]

theorem set_always_on_top_captured (s : Sys) (b : Bool) :
    (set_always_on_top s b).captured = s.captured := by
  cases b <;> simp [set_always_on_top, set_level_async, emitCmd]

theorem set_simple_fullscreen_of_native (env : Env) (s : Sys) (b : Bool)
    (h : s.shared.fullscreen.isSome = true) :
    set_simple_fullscreen env s b = (false, s) := by
  simp [set_simple_fullscreen, h]

theorem set_simple_fullscreen_fullscreen_eq (env : Env) (s : Sys) (b : Bool) :
    ((set_simple_fullscreen env s b).2).shared.fullscreen = s.shared.fullscreen := by
  cases hfs : s.shared.fullscreen <;>
    cases hsi : s.shared.is_simple_fullscreen <;>
      cases b <;>
        cases hr : s.shared.resizable <;>
          cases ho : s.shared.save_presentation_opts <;>
            simp [set_simple_fullscreen, savePresentationOpts, setAppPresentationOptions,
              toggle_style_mask, setFrame_display, setMovable, saved_style,
              saved_standard_frame, set_style_mask_async, set_style_mask_sync, emitCmd,
              contentRectForFrameRect, hfs, hsi, hr, ho]

theorem set_simple_fullscreen_captured_eq (env : Env) (s : Sys) (b : Bool) :
    ((set_simple_fullscreen env s b).2).captured = s.captured := by
  cases hfs : s.shared.fullscreen <;>
    cases hsi : s.shared.is_simple_fullscreen <;>
      cases b <;>
        cases hr : s.shared.resizable <;>
          cases ho : s.shared.save_presentation_opts <;>
            simp [set_simple_fullscreen, savePresentationOpts, setAppPresentationOptions,
              toggle_style_mask, setFrame_display, setMovable, saved_style,
              saved_standard_frame, set_style_mask_async, set_style_mask_sync, emitCmd,
              contentRectForFrameRect, hfs, hsi, hr, ho]

theorem set_simple_fullscreen_mutex (env : Env) (s : Sys) (b : Bool)
    (hs : s.shared.is_simple_fullscreen = true → s.shared.fullscreen = none) :
    ((set_simple_fullscreen env s b).2).shared.is_simple_fullscreen = true →
      ((set_simple_fullscreen env s b).2).shared.fullscreen = none := by
  intro h
  rw [set_simple_fullscreen_fullscreen_eq]
  cases hfs : s.shared.fullscreen with
  | none => rfl
  | some f =>
      cases hsi : s.shared.is_simple_fullscreen with
      | true => exact absurd (hs hsi) (by rw [hfs]; exact fun hc => Option.noConfusion hc)
      | false =>
          exfalso
          have hnative : s.shared.fullscreen.isSome = true := by rw [hfs]; rfl
          rw [set_simple_fullscreen_of_native env s b hnative] at h
          rw [hsi] at h
          exact Bool.false_ne_true h


theorem finishTransition_ok_capture (env : Env) (s r : Sys)
    (h : finishTransition env s = Except.ok r)
    (hs : ∀ vm, s.shared.fullscreen = some (Fullscreen.Exclusive vm) → vm.monitor ∈ s.captured) :
    ∀ vm, r.shared.fullscreen = some (Fullscreen.Exclusive vm) → vm.monitor ∈ r.captured := by
  unfold finishTransition at h
  dsimp only at h
  cases ht : s.shared.target_fullscreen with
  | none =>
      rw [ht] at h
      dsimp only at h
      have hr := Except.ok.inj h
      subst hr
      intro vm hvm
      exact hs vm hvm
  | some target =>
      rw [ht] at h
      dsimp only at h
      refine set_fullscreen_ok_capture env _ target r h ?_
      intro vm hvm
      exact hs vm hvm

theorem set_fullscreen_ok_of_simple_eq (env : Env) (u r : Sys) (mode : Option Fullscreen)
    (h : set_fullscreen env u mode = Except.ok r)
    (hsim : u.shared.is_simple_fullscreen = true) :
    r = u := by
  rw [set_fullscreen_of_simple env u mode hsim] at h
  exact (Except.ok.inj h).symm

theorem finishTransition_ok_mutex (env : Env) (s r : Sys)
    (h : finishTransition env s = Except.ok r)
    (hs : s.shared.is_simple_fullscreen = true → s.shared.fullscreen = none) :
    r.shared.is_simple_fullscreen = true → r.shared.fullscreen = none := by
  unfold finishTransition at h
  dsimp only at h
  cases ht : s.shared.target_fullscreen with
  | none =>
      rw [ht] at h
      dsimp only at h
      have hr := Except.ok.inj h
      subst hr
      exact hs
  | some target =>
      rw [ht] at h
      dsimp only at h
      intro hsim
      have hsim2 := set_fullscreen_ok_simple_eq env _ target r h
      rw [hsim] at hsim2
      have hsimS : s.shared.is_simple_fullscreen = true := hsim2.symm
      have hrequ := set_fullscreen_ok_of_simple_eq env _ r target h hsimS
      rw [hrequ]
      exact hs hsimS

theorem on_transition_did_end_ok_capture (env : Env) (s r : Sys) (entered : Bool)
    (h : on_transition_did_end env s entered = Except.ok r)
    (hs : ∀ vm, s.shared.fullscreen = some (Fullscreen.Exclusive vm) → vm.monitor ∈ s.captured) :
    ∀ vm, r.shared.fullscreen = some (Fullscreen.Exclusive vm) → vm.monitor ∈ r.captured := by
  unfold on_transition_did_end at h
  cases entered with
  | true =>
      rw [if_pos rfl] at h
      exact finishTransition_ok_capture env s r h hs
  | false =>
      rw [if_neg Bool.false_ne_true] at h
      refine finishTransition_ok_capture env _ r h ?_
      intro vm hvm
      rw [restore_fullscreen] at hvm
      exact absurd hvm (by simp)

theorem on_transition_did_end_ok_mutex (env : Env) (s r : Sys) (entered : Bool)
    (h : on_transition_did_end env s entered = Except.ok r)
    (hs : s.shared.is_simple_fullscreen = true → s.shared.fullscreen = none) :
    r.shared.is_simple_fullscreen = true → r.shared.fullscreen = none := by
  unfold on_transition_did_end at h
  cases entered with
  | true =>
      rw [if_pos rfl] at h
      exact finishTransition_ok_mutex env s r h hs
  | false =>
      rw [if_neg Bool.false_ne_true] at h
      exact finishTransition_ok_mutex env _ r h (fun _ => restore_fullscreen s)

theorem reachable_mutex {s : Sys} (h : Reachable s) :
    s.shared.is_simple_fullscreen = true → s.shared.fullscreen = none := by
  induction h with
  | init r m mask f o scr => intro _; rfl
  | step env op hreach hok ih =>
      rename_i s1 s2
      cases op with
      | setFS mode =>
          intro hsim
          have hsimple := set_fullscreen_ok_simple_eq env s1 mode s2 hok
          rw [hsim] at hsimple
          have hsimS : s1.shared.is_simple_fullscreen = true := hsimple.symm
          have hrequ := set_fullscreen_ok_of_simple_eq env s1 s2 mode hok hsimS
          rw [hrequ]
          exact ih hsimS
      | setSimpleFS b =>
          have hstep := Except.ok.inj hok
          subst hstep
          exact set_simple_fullscreen_mutex env s1 b ih
      | restoreFS =>
          have hstep := Except.ok.inj hok
          subst hstep
          intro _
          exact restore_fullscreen s1
      | willBegin =>
          have hstep := Except.ok.inj hok
          subst hstep
          exact ih
      | didEnd entered =>
          exact on_transition_did_end_ok_mutex env s1 s2 entered hok ih
      | setResizableOp b =>
          have hstep := Except.ok.inj hok
          subst hstep
          intro hsim
          rw [set_resizable_simple] at hsim
          rw [set_resizable_fullscreen]
          exact ih hsim
      | setDecorationsOp b =>
          have hstep := Except.ok.inj hok
          subst hstep
          rw [set_decorations_shared]
          exact ih
      | setMaximizedOp b =>
          have hstep := Except.ok.inj hok
          subst hstep
          intro hsim
          rw [set_maximized_simple] at hsim
          rw [set_maximized_fullscreen]
          exact ih hsim
      | setAlwaysOnTopOp b =>
          have hstep := Except.ok.inj hok
          subst hstep
          rw [set_always_on_top_shared]
          exact ih
      | queryZoomed =>
          have hstep := Except.ok.inj hok
          subst hstep
          rw [is_zoomed_shared]
          exact ih

theorem reachable_capture_aux {s : Sys} (h : Reachable s) :
    ∀ vm, s.shared.fullscreen = some (Fullscreen.Exclusive vm) → vm.monitor ∈ s.captured := by
  induction h with
  | init r m mask f o scr =>
      intro vm hvm
      exact absurd hvm (by simp [initSys])
  | step env op hreach hok ih =>
      rename_i s1 s2
      cases op with
      | setFS mode =>
          exact set_fullscreen_ok_capture env s1 mode s2 hok ih
      | setSimpleFS b =>
          have hstep := Except.ok.inj hok
          subst hstep
          intro vm hvm
          rw [set_simple_fullscreen_fullscreen_eq] at hvm
          rw [set_simple_fullscreen_captured_eq]
          exact ih vm hvm
      | restoreFS =>
          have hstep := Except.ok.inj hok
          subst hstep
          intro vm hvm
          rw [restore_fullscreen] at hvm
          exact absurd hvm (by simp)
      | willBegin =>
          have hstep := Except.ok.inj hok
          subst hstep
          exact ih
      | didEnd entered =>
          exact on_transition_did_end_ok_capture env s1 s2 entered hok ih
      | setResizableOp b =>
          have hstep := Except.ok.inj hok
          subst hstep
          intro vm hvm
          rw [set_resizable_fullscreen] at hvm
          rw [set_resizable_captured]
          exact ih vm hvm
      | setDecorationsOp b =>
          have hstep := Except.ok.inj hok
          subst hstep
          intro vm hvm
          rw [set_decorations_shared] at hvm
          rw [set_decorations_captured]
          exact ih vm hvm
      | setMaximizedOp b =>
          have hstep := Except.ok.inj hok
          subst hstep
          intro vm hvm
          rw [set_maximized_fullscreen] at hvm
          rw [set_maximized_captured]
          exact ih vm hvm
      | setAlwaysOnTopOp b =>
          have hstep := Except.ok.inj hok
          subst hstep
          intro vm hvm
          rw [set_always_on_top_shared] at hvm
          rw [set_always_on_top_captured]
          exact ih vm hvm
      | queryZoomed =>
          have hstep := Except.ok.inj hok
          subst hstep
          intro vm hvm
          rw [is_zoomed_shared] at hvm
          rw [is_zoomed_captured]
          exact ih vm hvm

theorem sfExclusiveEntry_ok_env (env : Env) (s : Sys) (old : Option Fullscreen)
    (vm : VideoMode) (t : Sys)
    (h : sfExclusiveEntry env s old vm = Except.ok t) :
    env.captureOk vm.monitor = true ∧ env.setModeOk vm.monitor vm.nativeMode = true := by
  cases hc : env.captureOk vm.monitor
  · simp [sfExclusiveEntry, hc] at h
  · cases hm : env.setModeOk vm.monitor vm.nativeMode
    · simp [sfExclusiveEntry, hc, hm] at h
    · exact ⟨rfl, rfl⟩

theorem set_fullscreen_ok_resizable (env : Env) (s : Sys) (mode : Option Fullscreen) (r : Sys)
    (h : set_fullscreen env s mode = Except.ok r) :
    r.shared.resizable = s.shared.resizable := by
  rcases set_fullscreen_ok_cases env s mode r h with hc | hc | ⟨s2, hr, _, _, _, hrz, _, _⟩
  · rw [hc]
  · rw [hc]
  · rw [hr, sfCommit_resizable, hrz]

theorem set_fullscreen_ok_styleMask (env : Env) (s : Sys) (mode : Option Fullscreen) (r : Sys)
    (h : set_fullscreen env s mode = Except.ok r) :
    r.surface.styleMask = s.surface.styleMask := by
  rcases set_fullscreen_ok_cases env s mode r h with hc | hc | ⟨s2, hr, _, _, _, _, hsm, _⟩
  · rw [hc]
  · rw [hc]
  · rw [hr, sfCommit_styleMask, hsm]

theorem styleMask_set_resizable_self (m : StyleMask) (r : Bool) (h : m.resizable = r) :
    (if r then { m with resizable := true } else { m with resizable := false }) = m := by
  cases r <;> cases m <;> simp_all

/-! ### Claim theorems -/

/-- C4: for every state not in transition and not in simple fullscreen, calling
`set_fullscreen` with a mode structurally equal to the currently recorded
fullscreen mode is a no-op: the call returns the state unchanged (so no field
of the shared state changes, including `in_fullscreen_transition`) and the
command trace is untouched (no Surface or Display command is issued). -/
theorem claim4_noop (env : Env) (s : Sys) (mode : Option Fullscreen)
    (h1 : s.shared.is_simple_fullscreen = false)
    (h2 : s.shared.in_fullscreen_transition = false)
    (h3 : mode = s.shared.fullscreen) :
    set_fullscreen env s mode = Except.ok s := by
  unfold set_fullscreen
  rw [if_neg (by rw [h1]; exact Bool.false_ne_true),
    if_neg (by rw [h2]; exact Bool.false_ne_true), if_pos h3]

/-- C4 witness: the no-op theorem applied to a fresh windowed window and
`mode = None`. -/
theorem claim4_noop_witness : set_fullscreen cenv cinit none = Except.ok cinit :=
  claim4_noop cenv cinit none rfl rfl rfl

/-- C3 (amended): for every `set_fullscreen` call made while
`in_fullscreen_transition` is true and simple fullscreen is not active, the
call stores the requested mode into `target_fullscreen` (overwriting any
earlier deferred value) and returns with no other state change and no Surface
or Display command. The original claim omitted the simple-fullscreen guard; see
the counterexample. -/
theorem claim3_deferred_request (env : Env) (s : Sys) (mode : Option Fullscreen)
    (h1 : s.shared.is_simple_fullscreen = false)
    (h2 : s.shared.in_fullscreen_transition = true) :
    set_fullscreen env s mode =
      Except.ok { s with shared := { s.shared with target_fullscreen := some mode } } := by
  unfold set_fullscreen
  rw [if_neg (by rw [h1]; exact Bool.false_ne_true), if_pos (by rw [h2])]

/-- C3 witness: the deferral theorem applied to a fresh window whose
transition flag has just been raised by the delegate. -/
theorem claim3_deferred_request_witness :
    set_fullscreen cenv c3defer none =
      Except.ok { c3defer with shared :=
        { c3defer.shared with target_fullscreen := some none } } :=
  claim3_deferred_request cenv c3defer none rfl rfl

/-- C3 counterexample: a reachable state in which `in_fullscreen_transition`
is true but `set_fullscreen` returns without storing the request, because
simple fullscreen is also active (the guard at window.rs:834 returns first).
The state is reached by entering and leaving native Borderless fullscreen,
then entering simple fullscreen while the exit toggle is still in flight (the
guard at window.rs:1201 only checks `fullscreen.is_some()`, which is already
`None` at that point). The claim as stated requires `target_fullscreen` to
become `some mode`; it stays `none`. -/
theorem claim3_counterexample :
    Reachable c3d6 ∧ c3d6.shared.in_fullscreen_transition = true ∧
    set_fullscreen cenv c3d6 (some (Fullscreen.Borderless none)) = Except.ok c3d6 ∧
    c3d6.shared.target_fullscreen = none := by
  refine ⟨?_, rfl, by rfl, rfl⟩
  have h0 : Reachable cinit := Reachable.init true false cmask cframe copts 0
  have h1 : Reachable c3d1 :=
    Reachable.step cenv (Op.setFS (some (Fullscreen.Borderless none))) h0 (by rfl)
  have h2 : Reachable c3d2 := Reachable.step cenv Op.willBegin h1 (by rfl)
  have h3 : Reachable c3d3 := Reachable.step cenv (Op.didEnd true) h2 (by rfl)
  have h4 : Reachable c3d4 := Reachable.step cenv (Op.setFS none) h3 (by rfl)
  have h5 : Reachable c3d5 := Reachable.step cenv Op.willBegin h4 (by rfl)
  exact Reachable.step cenv (Op.setSimpleFS true) h5 (by rfl)

/-- C1 counterexample: with a display whose capture fails, a `set_fullscreen`
call entering Exclusive mode ends in the assertion panic at window.rs:922
(modelled as `Except.error`) instead of aborting gracefully and reporting the
failure to the caller — the call has no error channel at all (`set_fullscreen`
returns `()` in the source). -/
theorem claim1_counterexample :
    exceptPanicked (set_fullscreen c1EnvFail cinit
      (some (Fullscreen.Exclusive ⟨1, 10⟩))) = true := by rfl

/-- C1 (amended): if the display capture or the video-mode switch fails while
`set_fullscreen` enters Exclusive mode, the call panics via an assertion
(window.rs:922/931) rather than reporting an error; the panic happens before
the shared state records the new mode, so at the panic point the state still
holds the pre-transition fullscreen mode — in particular the shared state is
never left claiming Exclusive without a successful display capture. -/
theorem claim1_panic_on_capture_failure (env : Env) (s : Sys) (vm : VideoMode)
    (h1 : s.shared.is_simple_fullscreen = false)
    (h2 : s.shared.in_fullscreen_transition = false)
    (h3 : some (Fullscreen.Exclusive vm) ≠ s.shared.fullscreen)
    (h4 : env.captureOk vm.monitor = false ∨ env.setModeOk vm.monitor vm.nativeMode = false) :
    exceptPanicked (set_fullscreen env s (some (Fullscreen.Exclusive vm))) = true ∧
    (resState (set_fullscreen env s (some (Fullscreen.Exclusive vm)))).shared.fullscreen
      = s.shared.fullscreen := by
  unfold set_fullscreen
  rw [if_neg (by rw [h1]; exact Bool.false_ne_true),
    if_neg (by rw [h2]; exact Bool.false_ne_true), if_neg h3]
  dsimp only
  cases hE : sfExclusiveEntry env (sfMove env s (Fullscreen.Exclusive vm))
      s.shared.fullscreen vm with
  | ok t =>
      obtain ⟨hc, hm⟩ := sfExclusiveEntry_ok_env env _ _ vm t hE
      rcases h4 with h4 | h4
      · rw [hc] at h4; exact absurd h4 (by simp)
      · rw [hm] at h4; exact absurd h4 (by simp)
  | error sp =>
      dsimp only
      refine ⟨rfl, ?_⟩
      have hsh := sfExclusiveEntry_error_shared env _ _ vm sp hE
      show sp.shared.fullscreen = s.shared.fullscreen
      rw [hsh]
      cases isSomeBorderless s.shared.fullscreen <;> simp [sfMove_shared]

/-- C1 witness: the amended theorem applied to a fresh window, a video mode on
display 1, and an environment whose captures all fail. -/
theorem claim1_witness :
    exceptPanicked (set_fullscreen c1EnvFail cinit
      (some (Fullscreen.Exclusive ⟨1, 10⟩))) = true ∧
    (resState (set_fullscreen c1EnvFail cinit
      (some (Fullscreen.Exclusive ⟨1, 10⟩)))).shared.fullscreen
      = cinit.shared.fullscreen :=
  claim1_panic_on_capture_failure c1EnvFail cinit ⟨1, 10⟩ rfl rfl (by decide) (Or.inl rfl)

/-- C2 (amended): in every reachable state, if the recorded fullscreen mode is
`Exclusive(vm)` then `vm`'s display is among the displays captured by the
process (the forward half of the claimed capture/mode duality). The converse
direction of the original claim is false — switching Exclusive fullscreen
between two monitors leaks the first capture — see the counterexample. The
source stores no capture handle at all; the `captured` component models the
ambient effect of `CGDisplayCapture` / the capture release performed by
`restore_display_mode_async`. -/
theorem claim2_exclusive_implies_capture {s : Sys} (h : Reachable s) (vm : VideoMode)
    (hvm : s.shared.fullscreen = some (Fullscreen.Exclusive vm)) :
    vm.monitor ∈ s.captured :=
  reachable_capture_aux h vm hvm

/-- C2 witness: after entering Exclusive fullscreen on display 1 from a fresh
window, display 1 is captured. -/
theorem claim2_witness : (1 : DisplayId) ∈ c2s1.captured := by
  have h0 : Reachable cinit := Reachable.init true false cmask cframe copts 0
  have h1 : Reachable c2s1 :=
    Reachable.step cenv (Op.setFS (some (Fullscreen.Exclusive ⟨1, 10⟩))) h0 (by rfl)
  exact claim2_exclusive_implies_capture h1 ⟨1, 10⟩ (by rfl)

/-- C2 counterexample: the claimed equivalence `capture held ⇔ Exclusive`
fails on a reachable state. Requesting `Exclusive` on display 1, then
`Exclusive` on display 2, then leaving fullscreen releases only display 2
(the `(Exclusive, Exclusive)` pair is the silent catch-all arm at
window.rs:1020, so display 1 is never released): the final state has
`fullscreen = None` while display 1 is still captured. -/
theorem claim2_counterexample :
    Reachable c2s3 ∧ c2s3.shared.fullscreen = none ∧ c2s3.captured = [1] := by
  refine ⟨?_, rfl, rfl⟩
  have h0 : Reachable cinit := Reachable.init true false cmask cframe copts 0
  have h1 : Reachable c2s1 :=
    Reachable.step cenv (Op.setFS (some (Fullscreen.Exclusive ⟨1, 10⟩))) h0 (by rfl)
  have h2 : Reachable c2s2 :=
    Reachable.step cenv (Op.setFS (some (Fullscreen.Exclusive ⟨2, 20⟩))) h1 (by rfl)
  exact Reachable.step cenv (Op.setFS none) h2 (by rfl)

/-- C9: simple fullscreen and native fullscreen are mutually exclusive. In
every reachable state at most one of `is_simple_fullscreen` and
`fullscreen.isSome` holds; every `set_fullscreen` call made while simple
fullscreen is active returns immediately with no state change; and every
`set_simple_fullscreen` call made while native fullscreen is active returns
`false` with no state change. -/
theorem claim9_mutual_exclusion :
    (∀ s : Sys, Reachable s →
      ¬(s.shared.is_simple_fullscreen = true ∧ s.shared.fullscreen.isSome = true)) ∧
    (∀ (env : Env) (s : Sys) (mode : Option Fullscreen),
      s.shared.is_simple_fullscreen = true → set_fullscreen env s mode = Except.ok s) ∧
    (∀ (env : Env) (s : Sys) (b : Bool),
      s.shared.fullscreen.isSome = true → set_simple_fullscreen env s b = (false, s)) := by
  refine ⟨?_, ?_, ?_⟩
  · rintro s hreach ⟨hsim, hfs⟩
    have hnone := reachable_mutex hreach hsim
    rw [hnone] at hfs
    exact absurd hfs (by simp)
  · exact fun env s mode h => set_fullscreen_of_simple env s mode h
  · exact fun env s b h => set_simple_fullscreen_of_native env s b h

/-- C9 witness: the three parts applied to a fresh window, a window in simple
fullscreen, and a window in native Borderless fullscreen, respectively. -/
theorem claim9_witness :
    ¬(cinit.shared.is_simple_fullscreen = true ∧ cinit.shared.fullscreen.isSome = true) ∧
    set_fullscreen cenv c9simple none = Except.ok c9simple ∧
    set_simple_fullscreen cenv c9native true = (false, c9native) :=
  ⟨claim9_mutual_exclusion.1 cinit (Reachable.init true false cmask cframe copts 0),
   claim9_mutual_exclusion.2.1 cenv c9simple none rfl,
   claim9_mutual_exclusion.2.2 cenv c9native true rfl⟩

/-- C10: querying the maximized state through `is_zoomed` leaves the Surface
style mask exactly as it was, for every starting mask; and when the current
mask lacks the titled and resizable bits, the query issues exactly the
temporary-mask application followed by the reapplication of the original
mask. -/
theorem claim10_zoom_query_preserves_mask (s : Sys) :
    ((is_zoomed s).2).surface.styleMask = s.surface.styleMask ∧
    ((s.surface.styleMask.titled && s.surface.styleMask.resizable) = false →
      ((is_zoomed s).2).cmds = s.cmds ++ [Cmd.setStyleMask zoomRequiredMask,
        Cmd.setStyleMask s.surface.styleMask]) := by
  constructor
  · exact is_zoomed_styleMask s
  · intro hneeds
    simp [is_zoomed, set_style_mask_async, set_style_mask_sync, emitCmd, hneeds]

/-- C10 witness: the preservation theorem applied to a borderless,
non-resizable window, for which the temporary mask is actually needed. -/
theorem claim10_witness :
    ((is_zoomed c10state).2).surface.styleMask = c10state.surface.styleMask ∧
    ((is_zoomed c10state).2).cmds = c10state.cmds ++ [Cmd.setStyleMask zoomRequiredMask,
      Cmd.setStyleMask c10state.surface.styleMask] :=
  ⟨(claim10_zoom_query_preserves_mask c10state).1,
   (claim10_zoom_query_preserves_mask c10state).2 (by decide)⟩

/-- C6: for every `set_fullscreen` call that reaches the transition logic
(not simple fullscreen, not in transition, mode differs from the current one)
whose target mode resolves to a monitor different from the window's current
screen, the very first Surface/Display command issued is the move of the
window's top-left corner to that monitor's frame — so the move always happens,
and happens before the native toggle-fullscreen command (and before every
other command), never after. This holds whether or not the Exclusive entry
succeeds. -/
theorem claim6_move_before_toggle (env : Env) (s : Sys) (fs : Fullscreen)
    (h0 : s.cmds = [])
    (h1 : s.shared.is_simple_fullscreen = false)
    (h2 : s.shared.in_fullscreen_transition = false)
    (h3 : some fs ≠ s.shared.fullscreen)
    (h4 : s.surface.screen ≠ newScreenFor s fs) :
    (resState (set_fullscreen env s (some fs))).cmds.head? =
      some (Cmd.setFrameTopLeft (moveTopLeftPoint env (newScreenFor s fs))) := by
  have hmv : (sfMove env s fs).cmds =
      [Cmd.setFrameTopLeft (moveTopLeftPoint env (newScreenFor s fs))] := by
    simp only [sfMove, set_frame_top_left_point_async, emitCmd]
    rw [if_pos h4, h0]
    rfl
  unfold set_fullscreen
  rw [if_neg (by rw [h1]; exact Bool.false_ne_true),
    if_neg (by rw [h2]; exact Bool.false_ne_true), if_neg h3]
  cases fs with
  | Borderless b =>
      dsimp only
      obtain ⟨l, hl⟩ := sfCommit_cmds_prefix (sfMove env s (Fullscreen.Borderless b))
        s.shared.fullscreen (some (Fullscreen.Borderless b))
      rw [hmv] at hl
      simp [resState, hl]
  | Exclusive vm =>
      dsimp only
      obtain ⟨l1, hl1⟩ := sfExclusiveEntry_cmds_prefix env
        (sfMove env s (Fullscreen.Exclusive vm)) s.shared.fullscreen vm
      rw [hmv] at hl1
      cases hE : sfExclusiveEntry env (sfMove env s (Fullscreen.Exclusive vm))
          s.shared.fullscreen vm with
      | error sp =>
          dsimp only
          rw [hE] at hl1
          simp only [resState] at hl1 ⊢
          rw [hl1]
          rfl
      | ok t =>
          dsimp only
          rw [hE] at hl1
          simp only [resState] at hl1 ⊢
          obtain ⟨l2, hl2⟩ := sfCommit_cmds_prefix t s.shared.fullscreen
            (some (Fullscreen.Exclusive vm))
          rw [hl2, hl1]
          rfl

/-- C6 witness: requesting Borderless fullscreen on monitor 2 while the
window sits on monitor 0 issues the top-left move to monitor 2's frame as the
first command. -/
theorem claim6_witness :
    (resState (set_fullscreen cenv cinit
        (some (Fullscreen.Borderless (some 2))))).cmds.head? =
      some (Cmd.setFrameTopLeft (moveTopLeftPoint cenv
        (newScreenFor cinit (Fullscreen.Borderless (some 2))))) :=
  claim6_move_before_toggle cenv cinit (Fullscreen.Borderless (some 2))
    rfl rfl rfl (by decide) (by decide)

/-- C8: calling `set_resizable b` while any fullscreen mode is active stores
the flag but leaves the Surface style mask unchanged; when fullscreen is then
exited via `restore_state_from_fullscreen`, the reapplied style mask has its
resizable bit equal to the stored flag `b`. -/
theorem claim8_resizable_deferred (s : Sys) (b : Bool) (fs : Fullscreen)
    (hfs : s.shared.fullscreen = some fs) :
    (set_resizable s b).shared.resizable = b ∧
    (set_resizable s b).surface.styleMask = s.surface.styleMask ∧
    (restore_state_from_fullscreen (set_resizable s b)).surface.styleMask.resizable = b := by
  refine ⟨set_resizable_resizable s b, ?_, ?_⟩
  · exact set_resizable_styleMask_of_fullscreen s b (by rw [hfs]; rfl)
  · rw [restore_styleMask_resizable, set_resizable_resizable]

/-- C8 witness: making a window in Borderless fullscreen non-resizable leaves
the mask untouched, and the restoration on exit reapplies the mask with the
resizable bit cleared. -/
theorem claim8_witness :
    (set_resizable c8pre false).shared.resizable = false ∧
    (set_resizable c8pre false).surface.styleMask = c8pre.surface.styleMask ∧
    (restore_state_from_fullscreen
      (set_resizable c8pre false)).surface.styleMask.resizable = false :=
  claim8_resizable_deferred c8pre false (Fullscreen.Borderless none) rfl

/-- C5 (amended): switching Borderless → Exclusive saves the application's
current presentation options and raises the window above the OS shielding
level; reverting Exclusive → Borderless restores the saved presentation
options exactly (bit-for-bit) and sets the window level to the normal (base)
level. The original claim's "restores the prior window level" is false when
the prior level was not the base level (e.g. an always-on-top window); see the
counterexample. -/
theorem claim5_exclusive_roundtrip (env : Env) (s s1 s2 : Sys) (b b2 : Option DisplayId)
    (vm : VideoMode)
    (hfs : s.shared.fullscreen = some (Fullscreen.Borderless b))
    (h1 : s.shared.is_simple_fullscreen = false)
    (h2 : s.shared.in_fullscreen_transition = false)
    (hs1 : set_fullscreen env s (some (Fullscreen.Exclusive vm)) = Except.ok s1)
    (hs2 : set_fullscreen env s1 (some (Fullscreen.Borderless b2)) = Except.ok s2) :
    s1.shared.save_presentation_opts = some s.app_presentation_options ∧
    s1.surface.level = WindowLevel.aboveShielding ∧
    s2.app_presentation_options = s.app_presentation_options ∧
    s2.surface.level = WindowLevel.normal := by
  have hne1 : some (Fullscreen.Exclusive vm) ≠ s.shared.fullscreen := by
    rw [hfs]; simp
  unfold set_fullscreen at hs1
  rw [if_neg (by rw [h1]; exact Bool.false_ne_true),
    if_neg (by rw [h2]; exact Bool.false_ne_true), if_neg hne1] at hs1
  dsimp only at hs1
  cases hE : sfExclusiveEntry env (sfMove env s (Fullscreen.Exclusive vm))
      s.shared.fullscreen vm with
  | error sp =>
      rw [hE] at hs1
      exact absurd hs1 (by simp)
  | ok t =>
      rw [hE] at hs1
      dsimp only at hs1
      have hs1' := Except.ok.inj hs1
      rw [hfs, sfCommit_bl_to_excl] at hs1'
      obtain ⟨hsur, happ, hsh, hcapt⟩ := sfExclusiveEntry_ok_fields env _ _ vm t hE
      rw [hfs] at hsh
      dsimp only [isSomeBorderless] at hsh
      rw [if_pos rfl] at hsh
      have e1 : s1.shared.save_presentation_opts = some t.app_presentation_options := by
        rw [← hs1']
      have e2 : s1.surface.level = WindowLevel.aboveShielding := by
        rw [← hs1']
      have e5 : s1.shared.fullscreen = some (Fullscreen.Exclusive vm) := by
        rw [← hs1']
      have hts : t.shared.is_simple_fullscreen = false := by
        rw [hsh]
        show (sfMove env s (Fullscreen.Exclusive vm)).shared.is_simple_fullscreen = false
        rw [sfMove_shared]; exact h1
      have htt : t.shared.in_fullscreen_transition = false := by
        rw [hsh]
        show (sfMove env s (Fullscreen.Exclusive vm)).shared.in_fullscreen_transition = false
        rw [sfMove_shared]; exact h2
      have e3 : s1.shared.is_simple_fullscreen = false := by
        rw [← hs1']
        show t.shared.is_simple_fullscreen = false
        exact hts
      have e4 : s1.shared.in_fullscreen_transition = false := by
        rw [← hs1']
        show t.shared.in_fullscreen_transition = false
        exact htt
      have hne2 : some (Fullscreen.Borderless b2) ≠ s1.shared.fullscreen := by
        rw [e5]; simp
      unfold set_fullscreen at hs2
      rw [if_neg (by rw [e3]; exact Bool.false_ne_true),
        if_neg (by rw [e4]; exact Bool.false_ne_true), if_neg hne2] at hs2
      dsimp only at hs2
      have hs2' := Except.ok.inj hs2
      rw [e5, sfCommit_excl_to_bl] at hs2'
      have f1 : s2.app_presentation_options =
          (sfMove env s1 (Fullscreen.Borderless b2)).shared.save_presentation_opts.getD
            exclusiveExitDefaultOpts := by
        rw [← hs2']
      have f2 : s2.surface.level = WindowLevel.normal := by
        rw [← hs2']
      refine ⟨?_, e2, ?_, f2⟩
      · rw [e1, happ, sfMove_app]
      · rw [f1, sfMove_shared, e1, happ, sfMove_app]
        rfl

/-- C5 witness: the round-trip theorem applied to a fresh window that entered
Borderless fullscreen, then Exclusive on display 1, then Borderless again. -/
theorem claim5_witness :
    c5w1.shared.save_presentation_opts = some c5pre.app_presentation_options ∧
    c5w1.surface.level = WindowLevel.aboveShielding ∧
    c5w2.app_presentation_options = c5pre.app_presentation_options ∧
    c5w2.surface.level = WindowLevel.normal :=
  claim5_exclusive_roundtrip cenv c5pre c5w1 c5w2 none none ⟨1, 10⟩
    rfl rfl rfl (by rfl) (by rfl)

/-- C5 counterexample: the claim's "restores the prior window level" fails.
An always-on-top window (level `floating`) in Borderless fullscreen still has
the floating level; after switching to Exclusive and back to Borderless, the
window level is the base/normal level (window.rs:1018 hard-codes
`kCGBaseWindowLevelKey`), not the floating level it had before. -/
theorem claim5_counterexample :
    c5x1.surface.level = WindowLevel.floating ∧
    c5x3.surface.level = WindowLevel.normal ∧
    c5x3.surface.level ≠ c5x1.surface.level :=
  ⟨rfl, rfl, by decide⟩

theorem styleMask_keep_resizable (m : StyleMask) (h : m.resizable = true) :
    { m with resizable := true } = m := by
  cases m; simp_all

theorem styleMask_keep_nonresizable (m : StyleMask) (h : m.resizable = false) :
    { m with resizable := false } = m := by
  cases m; simp_all

/-- C7 (amended): entering simple fullscreen captures the content rectangle of
the window frame (title bar excluded, per the source comment at
window.rs:1209-1210), the style mask, and the presentation options, and
resizes the window to the screen frame without issuing any native toggle or
display capture; exiting restores the presentation options exactly and — when
the stored resizable flag agrees with the saved mask's resizable bit, as it
does on every consistent state — the style mask exactly, but sets the window
frame to the captured content rectangle, not the pre-entry frame. The original
claim's "the window frame returns to its pre-entry value" is false for titled
windows; see the counterexample. -/
theorem claim7_simple_roundtrip (env : Env) (s s1 s2 : Sys)
    (hn : s.shared.fullscreen = none)
    (hsf : s.shared.is_simple_fullscreen = false)
    (hr : s.surface.styleMask.resizable = s.shared.resizable)
    (h0 : s.cmds = [])
    (hs1 : set_simple_fullscreen env s true = (true, s1))
    (hs2 : set_simple_fullscreen env s1 false = (true, s2)) :
    s1.shared.standard_frame
      = some (contentRectForFrameRect env s.surface.styleMask s.surface.frame) ∧
    s1.shared.saved_style = some s.surface.styleMask ∧
    s1.shared.save_presentation_opts = some s.app_presentation_options ∧
    s1.surface.frame = env.screenFrame s.surface.screen ∧
    s1.cmds.all (fun c => !isNativeToggleOrCapture c) = true ∧
    s2.surface.styleMask = s.surface.styleMask ∧
    s2.app_presentation_options = s.app_presentation_options ∧
    s2.surface.frame = contentRectForFrameRect env s.surface.styleMask s.surface.frame := by
  simp only [set_simple_fullscreen, savePresentationOpts, setAppPresentationOptions,
    toggle_style_mask, setFrame_display, setMovable, saved_style, saved_standard_frame,
    set_style_mask_async, set_style_mask_sync, emitCmd, hn, hsf, Option.isSome_none,
    Bool.false_or, Bool.and_false, Bool.and_true, Bool.not_true, Bool.false_and,
    Bool.or_false, Bool.or_self, Bool.not_false, Bool.and_self, if_false, if_true,
    Bool.false_eq_true, Prod.mk.injEq, true_and] at hs1
  subst hs1
  cases hrz : s.shared.resizable with
  | true =>
      rw [hrz] at hr
      simp only [set_simple_fullscreen, savePresentationOpts, setAppPresentationOptions,
        toggle_style_mask, setFrame_display, setMovable, saved_style, saved_standard_frame,
        set_style_mask_async, set_style_mask_sync, emitCmd, hrz, Option.isSome_none,
        Bool.false_or, Bool.and_false, Bool.and_true, Bool.not_true, Bool.false_and,
        Bool.or_false, Bool.or_self, Bool.not_false, Bool.and_self, if_false, if_true,
        Bool.false_eq_true, Option.getD_some, Prod.mk.injEq, true_and] at hs2
      subst hs2
      refine ⟨rfl, rfl, rfl, rfl, ?_, ?_, rfl, rfl⟩
      · rw [h0]
        simp [isNativeToggleOrCapture]
      · exact styleMask_keep_resizable s.surface.styleMask hr
  | false =>
      rw [hrz] at hr
      simp only [set_simple_fullscreen, savePresentationOpts, setAppPresentationOptions,
        toggle_style_mask, setFrame_display, setMovable, saved_style, saved_standard_frame,
        set_style_mask_async, set_style_mask_sync, emitCmd, hrz, Option.isSome_none,
        Bool.false_or, Bool.and_false, Bool.and_true, Bool.not_true, Bool.false_and,
        Bool.or_false, Bool.or_self, Bool.not_false, Bool.and_self, if_false, if_true,
        Bool.false_eq_true, Option.getD_some, Prod.mk.injEq, true_and] at hs2
      subst hs2
      refine ⟨rfl, rfl, rfl, rfl, ?_, ?_, rfl, rfl⟩
      · rw [h0]
        simp [isNativeToggleOrCapture]
      · exact styleMask_keep_nonresizable s.surface.styleMask hr

/-- C7 witness: the round-trip theorem applied to the fresh titled window. -/
theorem claim7_witness :
    c7s1.shared.standard_frame
      = some (contentRectForFrameRect cenv cinit.surface.styleMask cinit.surface.frame) ∧
    c7s1.shared.saved_style = some cinit.surface.styleMask ∧
    c7s1.shared.save_presentation_opts = some cinit.app_presentation_options ∧
    c7s1.surface.frame = cenv.screenFrame cinit.surface.screen ∧
    c7s1.cmds.all (fun c => !isNativeToggleOrCapture c) = true ∧
    c7s2.surface.styleMask = cinit.surface.styleMask ∧
    c7s2.app_presentation_options = cinit.app_presentation_options ∧
    c7s2.surface.frame = contentRectForFrameRect cenv cinit.surface.styleMask
      cinit.surface.frame :=
  claim7_simple_roundtrip cenv cinit c7s1 c7s2 rfl rfl rfl rfl (by rfl) (by rfl)

/-- C7 counterexample: the claim's "the window frame returns to its pre-entry
value" fails. The fresh window is titled with frame height 480; entering and
exiting simple fullscreen leaves the frame at the saved content rectangle,
whose height is 480 minus the title-bar height — not the original frame. -/
theorem claim7_counterexample :
    c7s2.surface.frame = { cframe with h := cframe.h - 28 } ∧
    c7s2.surface.frame ≠ cinit.surface.frame :=
  ⟨rfl, by decide⟩
